import Mathlib

/-!
Verification development for the revathi-enterprises-ui repository: a shallow
embedding of the client-side list-query state machines, response-shape
normalization, form validation schemas, auth/session storage operations and
mutation flows, together with theorems settling the specification claims.

Machine integers of the source (JavaScript numbers used as counts, page
indices and quantities) are modelled as `Nat`/`Int`; JS falsy-defaulting
(`x || d`) is modelled explicitly.
-/

/-- JS `x || d` on an optional number: `undefined` and `0` are falsy. -/
def jsOrNat (x : Option Nat) (d : Nat) : Nat :=
  match x with
  | none => d
  | some n => if n = 0 then d else n

/-- JS `x || d` on an optional string: `undefined` and `""` are falsy. -/
def jsOrStr (x : Option String) (d : String) : String :=
  match x with
  | none => d
  | some s => if s = "" then d else s

/-- `Math.ceil(a / b)` for natural `a` and positive natural `b`. -/
def ceilDiv (a b : Nat) : Nat := (a + b - 1) / b

/-! ### Response-shape normalization and per-page totalPages (claim C1)

The four list pages compute `totalPages` as follows in the source:
- `userService.searchUsers` (normalizing version): converts the backend
  `{items, count}` shape into `{data, total, page, limit, totalPages}` with
  `totalPages = Math.ceil((count || 0) / (limit || 10))`;
- `VariantsPage`: `totalItems = variantsResponse.count || 0` and
  `totalPages = Math.ceil(totalItems / itemsPerPage)`;
- `Products` and `ProductVariantsPage` (in Users.tsx):
  `totalItems = paginatedItems.length * currentPage // Rough estimate` and
  `totalPages = Math.ceil(totalItems / itemsPerPage)`;
- `SalesPage`: `totalItems = filteredItems.length` and
  `totalPages = Math.ceil(totalItems / itemsPerPage)`.
-/

/-- Canonical normalized list result, as produced by the normalizing
`userService.searchUsers`. -/
structure SearchUsersResult where
  total : Nat
  page : Nat
  limit : Nat
  totalPages : Nat
  deriving Repr, DecidableEq

/-- The `{items, count}` → `{data, total, page, limit, totalPages}` conversion
in the normalizing version of `userService.searchUsers`. -/
def searchUsersNormalize (count : Option Nat) (pageParam limitParam : Option Nat) :
    SearchUsersResult :=
  { total := jsOrNat count 0
    page := jsOrNat pageParam 1
    limit := jsOrNat limitParam 10
    totalPages := ceilDiv (jsOrNat count 0) (jsOrNat limitParam 10) }

/-- `VariantsPage`: `totalPages = Math.ceil((count || 0) / itemsPerPage)`. -/
def variantsPageTotalPages (count : Option Nat) (itemsPerPage : Nat) : Nat :=
  ceilDiv (jsOrNat count 0) itemsPerPage

/-- `Products` page (`Users.tsx`):
`totalItems = paginatedItems.length * currentPage // Rough estimate`. -/
def productsPageTotalItems (itemsOnPage currentPage : Nat) : Nat :=
  itemsOnPage * currentPage

/-- `Products` page (`Users.tsx`):
`totalPages = Math.ceil(totalItems / itemsPerPage)` over the rough estimate. -/
def productsPageTotalPages (itemsOnPage currentPage itemsPerPage : Nat) : Nat :=
  ceilDiv (productsPageTotalItems itemsOnPage currentPage) itemsPerPage

/-- `SalesPage`: `totalPages = Math.ceil(filteredItems.length / itemsPerPage)`. -/
def salesPageTotalPages (filteredCount itemsPerPage : Nat) : Nat :=
  ceilDiv filteredCount itemsPerPage

/-! ### List-query state machines per page (claim C2)

Each management page holds its pagination/search/filter/sort state in React
`useState` hooks.  The handlers and `useEffect`s below are translated from the
source; an event that changes a `useEffect` dependency is modelled together
with the effect it triggers (React re-runs an effect only when a dependency
actually changed, hence the equality tests in the search-change steps). -/

/-- `Users` component state (`Users.tsx`). -/
structure UsersPageState where
  currentPage : Nat
  itemsPerPage : Nat
  debouncedSearchTerm : String
  selectedRole : String
  appliedRole : String
  selectedStatus : String
  appliedStatus : String
  sortField : String
  sortOrder : String
  deriving Repr, DecidableEq

/-- `Users` page: the debounced search term settles to a new value.  The
component has no effect that resets `currentPage` on this dependency. -/
def usersDebouncedSearchChange (s : String) (st : UsersPageState) : UsersPageState :=
  { st with debouncedSearchTerm := s }

/-- `Users` page `applyFilters`. -/
def usersApplyFilters (st : UsersPageState) : UsersPageState :=
  { st with appliedRole := st.selectedRole, appliedStatus := st.selectedStatus,
            currentPage := 1 }

/-- `Users` page `clearFilters`. -/
def usersClearFilters (st : UsersPageState) : UsersPageState :=
  { st with selectedRole := "", selectedStatus := "",
            appliedRole := "", appliedStatus := "", currentPage := 1 }

/-- `Users` page `handleSort`. -/
def usersHandleSort (field : String) (st : UsersPageState) : UsersPageState :=
  if st.sortField = field then
    { st with sortOrder := if st.sortOrder = "asc" then "desc" else "asc",
              currentPage := 1 }
  else
    { st with sortField := field, sortOrder := "asc", currentPage := 1 }

/-- `Users` page `handlePageChange`. -/
def usersHandlePageChange (page : Nat) (st : UsersPageState) : UsersPageState :=
  { st with currentPage := page }

/-- `Users` page `handleItemsPerPageChange`. -/
def usersHandleItemsPerPageChange (newLimit : Nat) (st : UsersPageState) :
    UsersPageState :=
  { st with itemsPerPage := newLimit, currentPage := 1 }

/-- `Variants` component state (`VariantsPage.tsx`). -/
structure VariantsPageState where
  currentPage : Nat
  itemsPerPage : Nat
  searchTerm : String
  selectedCategory : String
  appliedCategory : String
  selectedBrand : String
  appliedBrand : String
  selectedBranch : String
  appliedBranch : String
  deriving Repr, DecidableEq

/-- `Variants` page: search input change plus the
`useEffect(() => setCurrentPage(1), [applied..., searchTerm])` that fires when
the `searchTerm` dependency actually changed. -/
def variantsSearchChange (s : String) (st : VariantsPageState) : VariantsPageState :=
  if s = st.searchTerm then st
  else { st with searchTerm := s, currentPage := 1 }

/-- `Variants` page `applyFilters`. -/
def variantsApplyFilters (st : VariantsPageState) : VariantsPageState :=
  { st with appliedCategory := st.selectedCategory,
            appliedBrand := st.selectedBrand,
            appliedBranch := st.selectedBranch, currentPage := 1 }

/-- `Variants` page `clearFilters`. -/
def variantsClearFilters (st : VariantsPageState) : VariantsPageState :=
  { st with selectedCategory := "", selectedBrand := "", selectedBranch := "",
            appliedCategory := "", appliedBrand := "", appliedBranch := "",
            currentPage := 1 }

/-- `Variants` page `handleItemsPerPageChange`. -/
def variantsHandleItemsPerPageChange (newLimit : Nat) (st : VariantsPageState) :
    VariantsPageState :=
  { st with itemsPerPage := newLimit, currentPage := 1 }

/-- A date-range filter value `{ start, end }` (the source field `end` is a
Lean keyword, hence `startDate`/`endDate`). -/
structure DateRange where
  startDate : String
  endDate : String
  deriving Repr, DecidableEq

/-- The empty date range `{ start: '', end: '' }`. -/
def emptyDateRange : DateRange := { startDate := "", endDate := "" }

/-- `SalesPage` component state (search is applied client-side there). -/
structure SalesPageState where
  currentPage : Nat
  itemsPerPage : Nat
  searchTerm : String
  selectedBranch : String
  appliedBranch : String
  selectedBrand : String
  appliedBrand : String
  selectedDateRange : DateRange
  appliedDateRange : DateRange
  deriving Repr, DecidableEq

/-- `SalesPage`: search input change.  The page filters client-side and has no
effect resetting `currentPage` on `searchTerm`. -/
def salesSearchChange (s : String) (st : SalesPageState) : SalesPageState :=
  { st with searchTerm := s }

/-- `SalesPage` `applyFilters`. -/
def salesApplyFilters (st : SalesPageState) : SalesPageState :=
  { st with appliedBranch := st.selectedBranch, appliedBrand := st.selectedBrand,
            appliedDateRange := st.selectedDateRange, currentPage := 1 }

/-- `SalesPage` `clearFilters`. -/
def salesClearFilters (st : SalesPageState) : SalesPageState :=
  { st with selectedBranch := "", selectedBrand := "",
            appliedBranch := "", appliedBrand := "",
            selectedDateRange := emptyDateRange,
            appliedDateRange := emptyDateRange, currentPage := 1 }

/-- `SalesPage` `handleItemsPerPageChange`. -/
def salesHandleItemsPerPageChange (newItemsPerPage : Nat) (st : SalesPageState) :
    SalesPageState :=
  { st with itemsPerPage := newItemsPerPage, currentPage := 1 }

/-- `Products` component state (`Users.tsx`). -/
structure ProductsPageState where
  currentPage : Nat
  itemsPerPage : Nat
  debouncedSearchTerm : String
  selectedCategory : String
  appliedCategory : String
  selectedBrand : String
  appliedBrand : String
  selectedDateRange : DateRange
  appliedDateRange : DateRange
  deriving Repr, DecidableEq

/-- `Products` page: debounced search settle plus the
`useEffect(() => setCurrentPage(1), [applied..., debouncedSearchTerm])`. -/
def productsDebouncedSearchChange (s : String) (st : ProductsPageState) :
    ProductsPageState :=
  if s = st.debouncedSearchTerm then st
  else { st with debouncedSearchTerm := s, currentPage := 1 }

/-- `Products` page `applyFilters`. -/
def productsApplyFilters (st : ProductsPageState) : ProductsPageState :=
  { st with appliedCategory := st.selectedCategory,
            appliedBrand := st.selectedBrand,
            appliedDateRange := st.selectedDateRange, currentPage := 1 }

/-- `Products` page `clearFilters`. -/
def productsClearFilters (st : ProductsPageState) : ProductsPageState :=
  { st with selectedCategory := "", selectedBrand := "",
            selectedDateRange := emptyDateRange,
            appliedCategory := "", appliedBrand := "",
            appliedDateRange := emptyDateRange, currentPage := 1 }

/-- `Products` page `handleItemsPerPageChange`. -/
def productsHandleItemsPerPageChange (newLimit : Nat) (st : ProductsPageState) :
    ProductsPageState :=
  { st with itemsPerPage := newLimit, currentPage := 1 }

/-- `ProductVariantsPage` component state (`Users.tsx`). -/
structure ProductVariantsPageState where
  currentPage : Nat
  itemsPerPage : Nat
  debouncedSearchTerm : String
  selectedBranch : String
  appliedBranch : String
  deriving Repr, DecidableEq

/-- `ProductVariantsPage`: debounced search settle plus the
`useEffect(() => setCurrentPage(1), [appliedBranch, debouncedSearchTerm])`. -/
def productVariantsDebouncedSearchChange (s : String)
    (st : ProductVariantsPageState) : ProductVariantsPageState :=
  if s = st.debouncedSearchTerm then st
  else { st with debouncedSearchTerm := s, currentPage := 1 }

/-- `ProductVariantsPage` `applyFilters`, including its
`if (!shouldEnableApply) return` guard. -/
def productVariantsApplyFilters (st : ProductVariantsPageState) :
    ProductVariantsPageState :=
  if st.selectedBranch = st.appliedBranch then st
  else { st with appliedBranch := st.selectedBranch, currentPage := 1 }

/-- `ProductVariantsPage` `clearFilters`. -/
def productVariantsClearFilters (st : ProductVariantsPageState) :
    ProductVariantsPageState :=
  { st with selectedBranch := "", appliedBranch := "", currentPage := 1 }

/-- `ProductVariantsPage` `handleItemsPerPageChange`. -/
def productVariantsHandleItemsPerPageChange (newLimit : Nat)
    (st : ProductVariantsPageState) : ProductVariantsPageState :=
  { st with itemsPerPage := newLimit, currentPage := 1 }

/-- Claim C2 counterexample: on the `Users` page, a change of the debounced
search term does not reset `currentPage` — starting from page 3 and settling
the search to `"phone"`, the page stays 3 instead of the claimed 1. -/
theorem c2_counterexample :
    (usersDebouncedSearchChange "phone"
      { currentPage := 3, itemsPerPage := 10, debouncedSearchTerm := "",
        selectedRole := "", appliedRole := "", selectedStatus := "",
        appliedStatus := "", sortField := "updatedAt",
        sortOrder := "desc" }).currentPage = 3 := rfl

/-- Claim C2 (amended): applying or clearing filters, changing the sort key
and changing the page size reset `currentPage` to 1 on the list pages, and a
debounced search change also resets it on the Variants, Products and
Product-Variants pages; but on the Users and Sales pages a search-term change
leaves `currentPage` unchanged. -/
theorem c2_page_reset_amended (ust : UsersPageState) (vst : VariantsPageState)
    (sst : SalesPageState) (pst : ProductsPageState)
    (pvst : ProductVariantsPageState) (s f : String) (n : Nat) :
    (usersApplyFilters ust).currentPage = 1 ∧
    (usersClearFilters ust).currentPage = 1 ∧
    (usersHandleSort f ust).currentPage = 1 ∧
    (usersHandleItemsPerPageChange n ust).currentPage = 1 ∧
    (usersDebouncedSearchChange s ust).currentPage = ust.currentPage ∧
    (variantsApplyFilters vst).currentPage = 1 ∧
    (variantsClearFilters vst).currentPage = 1 ∧
    (variantsHandleItemsPerPageChange n vst).currentPage = 1 ∧
    (variantsSearchChange s vst).currentPage =
      (if s = vst.searchTerm then vst.currentPage else 1) ∧
    (salesApplyFilters sst).currentPage = 1 ∧
    (salesClearFilters sst).currentPage = 1 ∧
    (salesHandleItemsPerPageChange n sst).currentPage = 1 ∧
    (salesSearchChange s sst).currentPage = sst.currentPage ∧
    (productsApplyFilters pst).currentPage = 1 ∧
    (productsClearFilters pst).currentPage = 1 ∧
    (productsHandleItemsPerPageChange n pst).currentPage = 1 ∧
    (productsDebouncedSearchChange s pst).currentPage =
      (if s = pst.debouncedSearchTerm then pst.currentPage else 1) ∧
    (productVariantsDebouncedSearchChange s pvst).currentPage =
      (if s = pvst.debouncedSearchTerm then pvst.currentPage else 1) ∧
    (productVariantsClearFilters pvst).currentPage = 1 ∧
    (productVariantsHandleItemsPerPageChange n pvst).currentPage = 1 ∧
    (productVariantsApplyFilters pvst).currentPage =
      (if pvst.selectedBranch = pvst.appliedBranch then pvst.currentPage else 1) := by
  refine ⟨rfl, rfl, ?_, rfl, rfl, rfl, rfl, rfl, ?_, rfl, rfl, rfl, rfl, rfl, rfl,
          rfl, ?_, ?_, rfl, rfl, ?_⟩
  · unfold usersHandleSort
    split <;> rfl
  · unfold variantsSearchChange
    split <;> simp [*]
  · unfold productsDebouncedSearchChange
    split <;> simp [*]
  · unfold productVariantsDebouncedSearchChange
    split <;> simp [*]
  · unfold productVariantsApplyFilters
    split <;> simp [*]

/-! ### Filter panel Apply-button enabling (claim C3)

`FilterPanel.tsx` renders the Apply button with
`disabled={isApplyDisabled && !isApplying}` where the `isApplyDisabled` prop
defaults to `false`.  Only `ProductVariantsPage` passes the prop, as
`!shouldEnableApply` with `shouldEnableApply = selectedBranch !== appliedBranch`;
the Users, Products, Variants and Sales pages omit it. -/

/-- `FilterPanel`: the Apply button's `disabled` attribute. -/
def filterPanelApplyDisabled (isApplyDisabledProp isApplying : Bool) : Bool :=
  isApplyDisabledProp && !isApplying

/-- `isApplyDisabled` prop value at the `Users` page call site (omitted, so
the component default `false`). -/
def usersFilterApplyDisabledProp : Bool := false

/-- `isApplyDisabled` prop value at the `Variants` page call site (omitted). -/
def variantsFilterApplyDisabledProp : Bool := false

/-- `isApplyDisabled` prop value at the `Products` page call site (omitted). -/
def productsFilterApplyDisabledProp : Bool := false

/-- `isApplyDisabled` prop value at the `SalesPage` call site (omitted). -/
def salesFilterApplyDisabledProp : Bool := false

/-- `ProductVariantsPage`: `shouldEnableApply = selectedBranch !== appliedBranch`. -/
def productVariantsShouldEnableApply (selectedBranch appliedBranch : String) : Bool :=
  selectedBranch != appliedBranch

/-- `ProductVariantsPage` passes `isApplyDisabled={!shouldEnableApply}`. -/
def productVariantsFilterApplyDisabledProp (selectedBranch appliedBranch : String) :
    Bool :=
  !(productVariantsShouldEnableApply selectedBranch appliedBranch)

/-- Claim C3 counterexample: on the `Users` page with
`selectedRole = appliedRole = ""` (no pending change) and no apply in
progress, the claim requires the Apply button to be disabled, but the page
omits `isApplyDisabled`, so the button is enabled. -/
theorem c3_counterexample :
    ¬ ((filterPanelApplyDisabled usersFilterApplyDisabledProp false = true) ↔
        (("" : String) = "")) := by
  decide

/-- Claim C3 (amended): only the Product-Variants page wires the disabled
logic — there Apply is disabled exactly when the selected branch equals the
applied branch and no apply is in progress; the Users, Variants, Products and
Sales filter panels never disable Apply. -/
theorem c3_apply_disabled_amended (sel app : String) (applying : Bool) :
    filterPanelApplyDisabled (productVariantsFilterApplyDisabledProp sel app)
        applying = ((sel == app) && !applying) ∧
    filterPanelApplyDisabled usersFilterApplyDisabledProp applying = false ∧
    filterPanelApplyDisabled variantsFilterApplyDisabledProp applying = false ∧
    filterPanelApplyDisabled productsFilterApplyDisabledProp applying = false ∧
    filterPanelApplyDisabled salesFilterApplyDisabledProp applying = false := by
  refine ⟨?_, rfl, rfl, rfl, rfl⟩
  simp [filterPanelApplyDisabled, productVariantsFilterApplyDisabledProp,
        productVariantsShouldEnableApply, bne]

/-! ### Create/update mutation flows (claim C5)

Translation of the `useMutation` success/error callbacks of the management
pages.  `Users.tsx` (`createUserMutation`, `updateUserMutation`): on success
invalidate `users-search`, close the modal, clear the error, reset the sort
and refetch; on error set the error from
`err.response?.data?.message || <generic>`.  `VariantsPage.tsx`
(`createVariantMutation`, `updateVariantMutation`): on success invalidate
`variants`, close the modal, clear the error and refetch; on error set the
error from the payload with a generic fallback.  The `Products` page
(`createProductMutation`, `updateProductMutation` in `Users.tsx`) does the
same with the `products` key, and `ProductVariantsPage` (also in `Users.tsx`)
invalidates both `product-variants` and `variants`.  No error callback
touches the modal state. -/

/-- The `Users` page state touched by its mutation callbacks, plus the query
keys invalidated and whether `refetch()` was called. -/
structure UsersMutState where
  isAddModalOpen : Bool
  mutationError : String
  sortField : String
  sortOrder : String
  invalidatedKeys : List String
  refetched : Bool
  deriving Repr, DecidableEq

/-- `createUserMutation.onSuccess`. -/
def usersCreateOnSuccess (st : UsersMutState) : UsersMutState :=
  { st with invalidatedKeys := "users-search" :: st.invalidatedKeys,
            isAddModalOpen := false, mutationError := "",
            sortField := "updatedAt", sortOrder := "desc", refetched := true }

/-- `createUserMutation.onError`; the argument is
`err.response?.data?.message`. -/
def usersCreateOnError (serverMessage : Option String) (st : UsersMutState) :
    UsersMutState :=
  { st with mutationError := jsOrStr serverMessage "Failed to create user" }

/-- `updateUserMutation.onSuccess`. -/
def usersUpdateOnSuccess (st : UsersMutState) : UsersMutState :=
  { st with invalidatedKeys := "users-search" :: st.invalidatedKeys,
            isAddModalOpen := false, mutationError := "",
            sortField := "updatedAt", sortOrder := "desc", refetched := true }

/-- `updateUserMutation.onError`. -/
def usersUpdateOnError (serverMessage : Option String) (st : UsersMutState) :
    UsersMutState :=
  { st with mutationError := jsOrStr serverMessage "Failed to update user" }

/-- The `Variants` page state touched by its mutation callbacks. -/
structure VariantsMutState where
  isAddModalOpen : Bool
  mutationError : String
  invalidatedKeys : List String
  refetched : Bool
  deriving Repr, DecidableEq

/-- `createVariantMutation.onSuccess` (`VariantsPage.tsx`). -/
def variantsCreateOnSuccess (st : VariantsMutState) : VariantsMutState :=
  { st with invalidatedKeys := "variants" :: st.invalidatedKeys,
            isAddModalOpen := false, mutationError := "", refetched := true }

/-- `createVariantMutation.onError` (`VariantsPage.tsx`). -/
def variantsCreateOnError (serverMessage : Option String) (st : VariantsMutState) :
    VariantsMutState :=
  { st with mutationError := jsOrStr serverMessage "Failed to create variant" }

/-- `updateVariantMutation.onSuccess` (`VariantsPage.tsx`). -/
def variantsUpdateOnSuccess (st : VariantsMutState) : VariantsMutState :=
  { st with invalidatedKeys := "variants" :: st.invalidatedKeys,
            isAddModalOpen := false, mutationError := "", refetched := true }

/-- `updateVariantMutation.onError` (`VariantsPage.tsx`). -/
def variantsUpdateOnError (serverMessage : Option String) (st : VariantsMutState) :
    VariantsMutState :=
  { st with mutationError := jsOrStr serverMessage "Failed to update variant" }

/-- The `Products` page state touched by its mutation callbacks
(`Users.tsx`). -/
structure ProductsMutState where
  isAddModalOpen : Bool
  mutationError : String
  invalidatedKeys : List String
  refetched : Bool
  deriving Repr, DecidableEq

/-- `createProductMutation.onSuccess` (`Users.tsx`). -/
def productsCreateOnSuccess (st : ProductsMutState) : ProductsMutState :=
  { st with invalidatedKeys := "products" :: st.invalidatedKeys,
            isAddModalOpen := false, mutationError := "", refetched := true }

/-- `createProductMutation.onError` (`Users.tsx`). -/
def productsCreateOnError (serverMessage : Option String) (st : ProductsMutState) :
    ProductsMutState :=
  { st with mutationError := jsOrStr serverMessage "Failed to create product" }

/-- `updateProductMutation.onSuccess` (`Users.tsx`). -/
def productsUpdateOnSuccess (st : ProductsMutState) : ProductsMutState :=
  { st with invalidatedKeys := "products" :: st.invalidatedKeys,
            isAddModalOpen := false, mutationError := "", refetched := true }

/-- `updateProductMutation.onError` (`Users.tsx`). -/
def productsUpdateOnError (serverMessage : Option String) (st : ProductsMutState) :
    ProductsMutState :=
  { st with mutationError := jsOrStr serverMessage "Failed to update product" }

/-- The `ProductVariantsPage` state touched by its mutation callbacks
(`Users.tsx`); its success callbacks invalidate both `product-variants` and
the main `variants` list. -/
structure ProductVariantsMutState where
  isAddModalOpen : Bool
  mutationError : String
  invalidatedKeys : List String
  refetched : Bool
  deriving Repr, DecidableEq

/-- `ProductVariantsPage` `createVariantMutation.onSuccess`. -/
def productVariantsCreateOnSuccess (st : ProductVariantsMutState) :
    ProductVariantsMutState :=
  { st with invalidatedKeys := "product-variants" :: "variants" :: st.invalidatedKeys,
            isAddModalOpen := false, mutationError := "", refetched := true }

/-- `ProductVariantsPage` `createVariantMutation.onError`. -/
def productVariantsCreateOnError (serverMessage : Option String)
    (st : ProductVariantsMutState) : ProductVariantsMutState :=
  { st with mutationError := jsOrStr serverMessage "Failed to create variant" }

/-- `ProductVariantsPage` `updateVariantMutation.onSuccess`. -/
def productVariantsUpdateOnSuccess (st : ProductVariantsMutState) :
    ProductVariantsMutState :=
  { st with invalidatedKeys := "product-variants" :: "variants" :: st.invalidatedKeys,
            isAddModalOpen := false, mutationError := "", refetched := true }

/-- `ProductVariantsPage` `updateVariantMutation.onError`. -/
def productVariantsUpdateOnError (serverMessage : Option String)
    (st : ProductVariantsMutState) : ProductVariantsMutState :=
  { st with mutationError := jsOrStr serverMessage "Failed to update variant" }

/-- Claim C5: for every create/update mutation on a management page — the
Users, Variants, Products and Product-Variants pages — on success the relevant
cached query key is invalidated, a refetch is triggered, the modal is closed
and the error banner cleared; on failure the page-scoped error is set from the
server payload (generic fallback when the payload has no message) and the
modal state is left untouched, so an open modal remains open. -/
theorem c5_mutation_flow (u : UsersMutState) (v : VariantsMutState)
    (p : ProductsMutState) (pv : ProductVariantsMutState)
    (msg : Option String) :
    ("users-search" ∈ (usersCreateOnSuccess u).invalidatedKeys ∧
      (usersCreateOnSuccess u).refetched = true ∧
      (usersCreateOnSuccess u).isAddModalOpen = false ∧
      (usersCreateOnSuccess u).mutationError = "") ∧
    ("users-search" ∈ (usersUpdateOnSuccess u).invalidatedKeys ∧
      (usersUpdateOnSuccess u).refetched = true ∧
      (usersUpdateOnSuccess u).isAddModalOpen = false ∧
      (usersUpdateOnSuccess u).mutationError = "") ∧
    ("variants" ∈ (variantsCreateOnSuccess v).invalidatedKeys ∧
      (variantsCreateOnSuccess v).refetched = true ∧
      (variantsCreateOnSuccess v).isAddModalOpen = false ∧
      (variantsCreateOnSuccess v).mutationError = "") ∧
    ("variants" ∈ (variantsUpdateOnSuccess v).invalidatedKeys ∧
      (variantsUpdateOnSuccess v).refetched = true ∧
      (variantsUpdateOnSuccess v).isAddModalOpen = false ∧
      (variantsUpdateOnSuccess v).mutationError = "") ∧
    ("products" ∈ (productsCreateOnSuccess p).invalidatedKeys ∧
      (productsCreateOnSuccess p).refetched = true ∧
      (productsCreateOnSuccess p).isAddModalOpen = false ∧
      (productsCreateOnSuccess p).mutationError = "") ∧
    ("products" ∈ (productsUpdateOnSuccess p).invalidatedKeys ∧
      (productsUpdateOnSuccess p).refetched = true ∧
      (productsUpdateOnSuccess p).isAddModalOpen = false ∧
      (productsUpdateOnSuccess p).mutationError = "") ∧
    ("product-variants" ∈ (productVariantsCreateOnSuccess pv).invalidatedKeys ∧
      "variants" ∈ (productVariantsCreateOnSuccess pv).invalidatedKeys ∧
      (productVariantsCreateOnSuccess pv).refetched = true ∧
      (productVariantsCreateOnSuccess pv).isAddModalOpen = false ∧
      (productVariantsCreateOnSuccess pv).mutationError = "") ∧
    ("product-variants" ∈ (productVariantsUpdateOnSuccess pv).invalidatedKeys ∧
      "variants" ∈ (productVariantsUpdateOnSuccess pv).invalidatedKeys ∧
      (productVariantsUpdateOnSuccess pv).refetched = true ∧
      (productVariantsUpdateOnSuccess pv).isAddModalOpen = false ∧
      (productVariantsUpdateOnSuccess pv).mutationError = "") ∧
    ((usersCreateOnError msg u).mutationError =
        jsOrStr msg "Failed to create user" ∧
      (usersCreateOnError msg u).isAddModalOpen = u.isAddModalOpen) ∧
    ((usersUpdateOnError msg u).mutationError =
        jsOrStr msg "Failed to update user" ∧
      (usersUpdateOnError msg u).isAddModalOpen = u.isAddModalOpen) ∧
    ((variantsCreateOnError msg v).mutationError =
        jsOrStr msg "Failed to create variant" ∧
      (variantsCreateOnError msg v).isAddModalOpen = v.isAddModalOpen) ∧
    ((variantsUpdateOnError msg v).mutationError =
        jsOrStr msg "Failed to update variant" ∧
      (variantsUpdateOnError msg v).isAddModalOpen = v.isAddModalOpen) ∧
    ((productsCreateOnError msg p).mutationError =
        jsOrStr msg "Failed to create product" ∧
      (productsCreateOnError msg p).isAddModalOpen = p.isAddModalOpen) ∧
    ((productsUpdateOnError msg p).mutationError =
        jsOrStr msg "Failed to update product" ∧
      (productsUpdateOnError msg p).isAddModalOpen = p.isAddModalOpen) ∧
    ((productVariantsCreateOnError msg pv).mutationError =
        jsOrStr msg "Failed to create variant" ∧
      (productVariantsCreateOnError msg pv).isAddModalOpen = pv.isAddModalOpen) ∧
    ((productVariantsUpdateOnError msg pv).mutationError =
        jsOrStr msg "Failed to update variant" ∧
      (productVariantsUpdateOnError msg pv).isAddModalOpen = pv.isAddModalOpen) := by
  refine ⟨⟨List.mem_cons_self _ _, rfl, rfl, rfl⟩,
          ⟨List.mem_cons_self _ _, rfl, rfl, rfl⟩,
          ⟨List.mem_cons_self _ _, rfl, rfl, rfl⟩,
          ⟨List.mem_cons_self _ _, rfl, rfl, rfl⟩,
          ⟨List.mem_cons_self _ _, rfl, rfl, rfl⟩,
          ⟨List.mem_cons_self _ _, rfl, rfl, rfl⟩,
          ⟨List.mem_cons_self _ _, List.mem_cons_of_mem _ (List.mem_cons_self _ _),
            rfl, rfl, rfl⟩,
          ⟨List.mem_cons_self _ _, List.mem_cons_of_mem _ (List.mem_cons_self _ _),
            rfl, rfl, rfl⟩,
          ⟨rfl, rfl⟩, ⟨rfl, rfl⟩, ⟨rfl, rfl⟩, ⟨rfl, rfl⟩,
          ⟨rfl, rfl⟩, ⟨rfl, rfl⟩, ⟨rfl, rfl⟩, ⟨rfl, rfl⟩⟩

/-! ### Firebase login error mapping (claim C10)

Translation of the `if (error.code === ...)` chain in `authService.login`
(Firebase variant). -/

/-- Error message produced by the Firebase `authService.login` catch block for
a given Firebase error code. -/
def loginErrorMessage (code : String) : String :=
  if code = "auth/user-not-found" ∨ code = "auth/wrong-password" ∨
      code = "auth/invalid-credential" then
    "Invalid email or password. Please check your credentials and try again."
  else if code = "auth/invalid-email" then
    "Please enter a valid email address."
  else if code = "auth/user-disabled" then
    "This account has been disabled. Please contact support."
  else if code = "auth/too-many-requests" then
    "Too many failed login attempts. Please try again after some time or reset your password."
  else if code = "auth/network-request-failed" then
    "Network error. Please check your internet connection and try again."
  else
    "Unable to sign in. Please check your credentials and try again."

/-! ### HTTP client state and the 401 response interceptor (claim C4)

Translation of the axios interceptors registered in `services/api.ts`:
the request interceptor reads `localStorage.getItem("auth_token")`; the
response interceptor, on `error.response?.status === 401`, performs
`localStorage.removeItem("auth_token")` and `window.location.href = "/login"`.
-/

/-- Browser-visible client state: the local storage key/value pairs and the
current location. -/
structure ClientState where
  localStorage : List (String × String)
  href : String
  deriving Repr, DecidableEq

/-- `localStorage.getItem k`. -/
def lsGetItem (store : List (String × String)) (k : String) : Option String :=
  (store.find? (fun kv => kv.1 == k)).map (fun kv => kv.2)

/-- `localStorage.removeItem k`. -/
def lsRemoveItem (store : List (String × String)) (k : String) :
    List (String × String) :=
  store.filter (fun kv => kv.1 != k)

/-- `localStorage.setItem k v` (replace any existing binding for `k`). -/
def lsSetItem (store : List (String × String)) (k v : String) :
    List (String × String) :=
  (k, v) :: lsRemoveItem store k

/-- The axios response interceptor of `services/api.ts`: on a 401 status it
removes the `auth_token` key and navigates to `/login`; all other statuses
leave the client state unchanged. -/
def apiResponseInterceptor (status : Nat) (st : ClientState) : ClientState :=
  if status = 401 then
    { localStorage := lsRemoveItem st.localStorage "auth_token", href := "/login" }
  else st

theorem lsGetItem_lsRemoveItem (l : List (String × String)) (k : String) :
    lsGetItem (lsRemoveItem l k) k = none := by
  have h : (lsRemoveItem l k).find? (fun kv => kv.1 == k) = none := by
    rw [List.find?_eq_none]
    intro x hx
    have hmem := (List.mem_filter.mp hx).2
    simp only [bne_iff_ne, ne_eq] at hmem
    simp [hmem]
  simp [lsGetItem, h]

/-! ### Local-storage token keys across the auth flows (claim C7)

One entry per `localStorage` call site that stores, reads or removes the
session token, across both auth variants present in the repository.  The JWT
variant (`services/api.ts` interceptors, `services/authService.ts`,
`context/AuthContext.tsx`) uses the key `"auth_token"`; the Firebase variant
(the Firebase `authService` and its `AuthProvider`) uses `"firebase_token"`.
These are the only `localStorage` call sites in the repository. -/
structure TokenOpSite where
  flow : String
  op : String
  key : String
  deriving Repr, DecidableEq

/-- Every `localStorage` call site touching the session token, with the auth
flow it belongs to (`"http"` for the shared axios interceptors, `"jwt"` for
the backend-JWT variant, `"firebase"` for the Firebase variant) and the
literal key name it uses. -/
def tokenKeyUses : List TokenOpSite :=
  [ ⟨"http", "api.requestInterceptor.getItem", "auth_token"⟩,
    ⟨"http", "api.responseInterceptor401.removeItem", "auth_token"⟩,
    ⟨"jwt", "authService.logout.removeItem", "auth_token"⟩,
    ⟨"jwt", "authContext.init.getItem", "auth_token"⟩,
    ⟨"jwt", "authContext.initFailure.removeItem", "auth_token"⟩,
    ⟨"jwt", "authContext.login.setItem", "auth_token"⟩,
    ⟨"jwt", "authContext.register.setItem", "auth_token"⟩,
    ⟨"firebase", "authService.logout.removeItem", "firebase_token"⟩,
    ⟨"firebase", "authService.logoutFallback.removeItem", "firebase_token"⟩,
    ⟨"firebase", "authProvider.authStateChanged.setItem", "firebase_token"⟩,
    ⟨"firebase", "authProvider.authStateFailure.removeItem", "firebase_token"⟩,
    ⟨"firebase", "authProvider.signedOut.removeItem", "firebase_token"⟩,
    ⟨"firebase", "authProvider.login.setItem", "firebase_token"⟩,
    ⟨"firebase", "authProvider.register.setItem", "firebase_token"⟩ ]

/-- Claim C4: for every response with status 401 received through the
configured HTTP client, whatever the prior client state, the stored bearer
token is no longer present in local storage and the browser is at the login
route. -/
theorem c4_401_clears_token_and_redirects (st : ClientState) :
    lsGetItem (apiResponseInterceptor 401 st).localStorage "auth_token" = none ∧
    (apiResponseInterceptor 401 st).href = "/login" := by
  constructor
  · simpa [apiResponseInterceptor] using
      lsGetItem_lsRemoveItem st.localStorage "auth_token"
  · simp [apiResponseInterceptor]

/-- Claim C7 counterexample: there is no single fixed key name used by every
token store/read/remove operation — the request interceptor reads
`"auth_token"` while the Firebase auth provider's login stores the token under
`"firebase_token"`. -/
theorem c7_counterexample : ¬ ∃ k : String, ∀ u ∈ tokenKeyUses, u.key = k := by
  rintro ⟨k, h⟩
  have h1 : (⟨"http", "api.requestInterceptor.getItem", "auth_token"⟩ : TokenOpSite)
      ∈ tokenKeyUses := by simp [tokenKeyUses]
  have h2 : (⟨"firebase", "authProvider.login.setItem", "firebase_token"⟩ : TokenOpSite)
      ∈ tokenKeyUses := by simp [tokenKeyUses]
  have e1 := h _ h1
  have e2 := h _ h2
  rw [← e1] at e2
  exact absurd e2 (by decide)

/-- Claim C7 (amended): the only client state persisted to browser local
storage is a bearer token, but under two fixed key names rather than one: the
HTTP interceptors and the JWT auth flow consistently use `"auth_token"`, while
the Firebase auth flow consistently stores and removes the token under
`"firebase_token"`. -/
theorem c7_two_fixed_token_keys :
    (tokenKeyUses.all fun u =>
      u.key == (if u.flow == "firebase" then "firebase_token" else "auth_token")) = true := by
  decide

/-- Claim C1: the specification requires every list page to compute
`totalPages = ceil(total / itemsPerPage)` after normalization, but the
`Products` page in `Users.tsx` computes the total as the rough estimate
`itemsOnPage * currentPage`: with a full first page of 10 items at page size
10 and a true backend total of 25, the code reports 1 total page while the
specified value is 3. -/
theorem c1_products_totalPages_bug :
    productsPageTotalPages 10 1 10 = 1 ∧ ceilDiv 25 10 = 3 ∧
    productsPageTotalPages 10 1 10 ≠ ceilDiv 25 10 := by
  decide

/-- Claim C10: the Firebase login error mapping returns the identical message
for a non-existent account (`auth/user-not-found`), a wrong password
(`auth/wrong-password`) and an invalid credential (`auth/invalid-credential`),
so the login error does not reveal whether the submitted email is
registered. -/
theorem c10_login_error_indistinguishable :
    loginErrorMessage "auth/user-not-found" = loginErrorMessage "auth/wrong-password" ∧
    loginErrorMessage "auth/wrong-password" = loginErrorMessage "auth/invalid-credential" ∧
    loginErrorMessage "auth/user-not-found" =
      "Invalid email or password. Please check your credentials and try again." := by
  refine ⟨rfl, ?_, rfl⟩
  rfl

/-! ### Sell form validation (claim C6)

Translation of `customerSchema` and `SellSchema` in the `SellForm` of
`VariantForm.tsx`, and of the submit path: `react-hook-form`'s `handleSubmit`
with `zodResolver(SellSchema)` invokes `onSubmit` — which builds the payload
and calls `onSell` (and hence `salesApi.createSale`, the network call) — only
when the schema validates.  All form fields are registered text inputs
defaulting to `""`, so they are modelled as strings; the
`.optional().or(z.literal(''))` branches accept the empty string. -/

/-- The check `/^\d{n}$/` combined with `.length(n)` (zod applies both; they
coincide): exactly `n` characters, all decimal digits. -/
def regexExactDigits (n : Nat) (s : String) : Bool :=
  (s.data.length == n) && s.data.all Char.isDigit

/-- Abstraction of the zod library's `z.string().email()` validator (library
code, not part of this repository): one `@` with non-empty sides and no
spaces.  The claims settled here do not depend on its exact boundary. -/
def zodEmailOk (s : String) : Bool :=
  (s.data.count '@' == 1) &&
  !(s.data.head? == some '@') &&
  !(s.data.getLast? == some '@') &&
  !(s.data.contains ' ')

/-- The sell form's customer fields as held by the form (text inputs). -/
structure SellCustomerInput where
  name : String
  phone : String
  email : String
  address : String
  city : String
  state : String
  pincode : String
  deriving Repr, DecidableEq

/-- The sell form values validated by `SellSchema`. -/
structure SellFormInput where
  sellingPrice : Int
  customer : SellCustomerInput
  paymentMethod : String
  color : String
  notes : String
  deriving Repr, DecidableEq

/-- `customerSchema`: name min 2; phone exactly 10 digits; email valid or
empty; address/city/state free; pincode exactly 6 digits or empty. -/
def customerSchemaOk (c : SellCustomerInput) : Bool :=
  decide (2 ≤ c.name.length) &&
  regexExactDigits 10 c.phone &&
  (zodEmailOk c.email || c.email == "") &&
  (regexExactDigits 6 c.pincode || c.pincode == "")

/-- `SellSchema`: selling price at least 1, valid customer, non-empty payment
method. -/
def sellSchemaOk (f : SellFormInput) : Bool :=
  decide (1 ≤ f.sellingPrice) && customerSchemaOk f.customer &&
  decide (1 ≤ f.paymentMethod.length)

/-- JS `x || undefined` on a form string. -/
def jsOrUndef (s : String) : Option String :=
  if s = "" then none else some s

/-- The snake_case customer payload built by `onSubmit`. -/
structure SaleCustomerPayload where
  name : String
  phone : String
  email : Option String
  address : Option String
  city : Option String
  state : Option String
  pincode : Option String
  deriving Repr, DecidableEq

/-- The snake_case sale payload sent to `salesApi.createSale`. -/
structure SalePayload where
  variant_uid : String
  selling_price : Int
  customer : SaleCustomerPayload
  payment_method : String
  color : Option String
  notes : Option String
  deriving Repr, DecidableEq

/-- Submitting the sell form: `handleSubmit(onSubmit)` runs the zod resolver;
`none` means validation failed and no network call is made, `some payload`
means `salesApi.createSale payload` is invoked. -/
def submitSellForm (variantUid : String) (f : SellFormInput) : Option SalePayload :=
  if sellSchemaOk f then
    some { variant_uid := variantUid
           selling_price := f.sellingPrice
           customer := { name := f.customer.name
                         phone := f.customer.phone
                         email := jsOrUndef f.customer.email
                         address := jsOrUndef f.customer.address
                         city := jsOrUndef f.customer.city
                         state := jsOrUndef f.customer.state
                         pincode := jsOrUndef f.customer.pincode }
           payment_method := f.paymentMethod
           color := jsOrUndef f.color
           notes := jsOrUndef f.notes }
  else none

/-- Claim C6: a sell-form submission whose phone is not exactly 10 numeric
digits (in particular 9 or 11 digits) is rejected before any network call; a
non-empty pincode that is not exactly 6 digits is likewise rejected; and a
10-digit numeric phone together with otherwise valid fields produces the
network call. -/
theorem c6_sell_form_validation :
    (∀ (uid : String) (f : SellFormInput),
      regexExactDigits 10 f.customer.phone = false →
      submitSellForm uid f = none) ∧
    (∀ (uid : String) (f : SellFormInput),
      f.customer.pincode ≠ "" → regexExactDigits 6 f.customer.pincode = false →
      submitSellForm uid f = none) ∧
    (∀ (uid : String) (f : SellFormInput),
      2 ≤ f.customer.name.length →
      regexExactDigits 10 f.customer.phone = true →
      (zodEmailOk f.customer.email || f.customer.email == "") = true →
      (regexExactDigits 6 f.customer.pincode || f.customer.pincode == "") = true →
      1 ≤ f.sellingPrice → 1 ≤ f.paymentMethod.length →
      (submitSellForm uid f).isSome = true) := by
  refine ⟨?_, ?_, ?_⟩
  · intro uid f h
    simp [submitSellForm, sellSchemaOk, customerSchemaOk, h]
  · intro uid f hne h
    simp [submitSellForm, sellSchemaOk, customerSchemaOk, h, hne]
  · intro uid f h1 h2 h3 h4 h5 h6
    simp [submitSellForm, sellSchemaOk, customerSchemaOk, h1, h2, h3, h4, h5, h6]

/-- A sell-form value with every field valid except possibly phone/pincode. -/
def sellFormSample (phone pincode : String) : SellFormInput :=
  { sellingPrice := 1000
    customer := { name := "Asha Rao", phone := phone, email := "",
                  address := "", city := "", state := "", pincode := pincode }
    paymentMethod := "Cash", color := "", notes := "" }

/-- Claim C6 witness: a 9-digit and an 11-digit phone are rejected with no
payload, a 5-digit pincode is rejected, and a 10-digit phone with a 6-digit
pincode submits. -/
theorem c6_witness :
    submitSellForm "v1" (sellFormSample "123456789" "") = none ∧
    submitSellForm "v1" (sellFormSample "12345678901" "") = none ∧
    submitSellForm "v1" (sellFormSample "1234567890" "12345") = none ∧
    (submitSellForm "v1" (sellFormSample "1234567890" "560001")).isSome = true :=
  ⟨c6_sell_form_validation.1 "v1" _ (by decide),
   c6_sell_form_validation.1 "v1" _ (by decide),
   c6_sell_form_validation.2.1 "v1" _ (by decide) (by decide),
   c6_sell_form_validation.2.2 "v1" _ (by decide) (by decide) (by decide)
     (by decide) (by decide) (by decide)⟩

/-! ### Out-of-stock rendering (claim C8)

`VariantDetailPage.tsx` renders the Sell button with
`disabled={variant.quantity === 0}` and label
`variant.quantity === 0 ? 'Out of Stock' : 'Sell'`; `getStatusBadge` in
`VariantsPage.tsx` returns the Out of Stock badge for `quantity === 0`, Low
Stock below `MIN_STOCK_COUNT`, else In Stock.  `MIN_STOCK_COUNT` comes from
`common/constants`, a module not present in the sources, so it is a
parameter here; the zero-quantity branch does not depend on it. -/

/-- The variant fields consumed by the detail-page Sell action. -/
structure VariantModel where
  uid : String
  product_name : String
  quantity : Int
  deriving Repr, DecidableEq

/-- `VariantDetailPage`: the Sell button's `disabled` attribute. -/
def variantDetailSellDisabled (v : VariantModel) : Bool :=
  v.quantity == 0

/-- `VariantDetailPage`: the Sell button's label. -/
def variantDetailSellLabel (v : VariantModel) : String :=
  if v.quantity == 0 then "Out of Stock" else "Sell"

/-- `VariantsPage.getStatusBadge` (badge text). -/
def getStatusBadge (minStockCount quantity : Int) : String :=
  if quantity == 0 then "Out of Stock"
  else if quantity < minStockCount then "Low Stock"
  else "In Stock"

/-- Claim C8: a variant with quantity 0 renders the Sell action disabled and
labeled Out of Stock on the detail page, and the variants list shows the Out
of Stock status badge, so a sale cannot be initiated from it. -/
theorem c8_out_of_stock (v : VariantModel) (minStockCount : Int)
    (h : v.quantity = 0) :
    variantDetailSellDisabled v = true ∧
    variantDetailSellLabel v = "Out of Stock" ∧
    getStatusBadge minStockCount v.quantity = "Out of Stock" := by
  refine ⟨?_, ?_, ?_⟩ <;>
    simp [variantDetailSellDisabled, variantDetailSellLabel, getStatusBadge, h]

/-- A concrete zero-quantity variant. -/
def zeroQtyVariant : VariantModel :=
  { uid := "v1", product_name := "iPhone 13", quantity := 0 }

/-- Claim C8 witness: the zero-quantity variant evaluated concretely. -/
theorem c8_witness :
    variantDetailSellDisabled zeroQtyVariant = true ∧
    variantDetailSellLabel zeroQtyVariant = "Out of Stock" ∧
    getStatusBadge 5 zeroQtyVariant.quantity = "Out of Stock" :=
  c8_out_of_stock zeroQtyVariant 5 rfl

/-! ### Create-user form schema (claim C9)

Translation of `createUserSchema` in `Users.tsx`: a zod object with base field
checks (`firstName` min 2, `email` valid, `password` min 6, `lastName` and
`confirmPassword` plain strings) followed by
`.refine(data => data.password === data.confirmPassword,
        \x7b message: "Passwords don\x27t match", path: ["confirmPassword"] \x7d)`.
zod runs the refinement only when the base object parses, and attaches the
refinement error at the `confirmPassword` path.  `onSubmitCreate` — and with
it `userService.createUser`, the network call — is invoked by
`handleSubmit(onSubmitCreate)` only when parsing succeeds. -/

/-- The create-user form fields. -/
structure CreateUserInput where
  firstName : String
  lastName : String
  email : String
  password : String
  confirmPassword : String
  deriving Repr, DecidableEq

/-- The base (per-field) issues of `createUserSchema`, before the
refinement. -/
def createUserBaseErrors (f : CreateUserInput) : List (String × String) :=
  (if f.firstName.length < 2 then
    [("firstName", "First name must be at least 2 characters")] else []) ++
  (if zodEmailOk f.email then [] else [("email", "Invalid email address")]) ++
  (if f.password.length < 6 then
    [("password", "Password must be at least 6 characters")] else [])

/-- `createUserSchema` parsing: base checks, then the password-confirmation
refinement whose issue is attached at the `confirmPassword` path. -/
def createUserParse (f : CreateUserInput) :
    Except (List (String × String)) CreateUserInput :=
  if (createUserBaseErrors f).isEmpty then
    if f.password = f.confirmPassword then Except.ok f
    else Except.error [("confirmPassword", "Passwords don\x27t match")]
  else Except.error (createUserBaseErrors f)

/-- Whether submitting the create-user form reaches `onSubmitCreate` (and so
the `createUserMutation` network call). -/
def createUserSubmitFires (f : CreateUserInput) : Bool :=
  match createUserParse f with
  | Except.ok _ => true
  | Except.error _ => false

/-- Claim C9: with the base fields valid, a create-user submission whose
password differs from the confirm-password field fails schema validation with
the single issue attached to the confirm-password field, and no network call
is made. -/
theorem c9_confirm_password_mismatch (f : CreateUserInput)
    (hbase : createUserBaseErrors f = [])
    (hne : f.password ≠ f.confirmPassword) :
    createUserParse f =
      Except.error [("confirmPassword", "Passwords don\x27t match")] ∧
    createUserSubmitFires f = false := by
  constructor
  · simp [createUserParse, hbase, hne]
  · simp [createUserSubmitFires, createUserParse, hbase, hne]

/-- A create-user form value whose base fields are valid but whose password
and confirm-password differ. -/
def mismatchedCreateUserInput : CreateUserInput :=
  { firstName := "Damodhar", lastName := "", email := "damodhar@example.com",
    password := "secret123", confirmPassword := "secret124" }

/-- Claim C9 witness: the mismatched form evaluated concretely. -/
theorem c9_witness :
    createUserParse mismatchedCreateUserInput =
      Except.error [("confirmPassword", "Passwords don\x27t match")] ∧
    createUserSubmitFires mismatchedCreateUserInput = false :=
  c9_confirm_password_mismatch mismatchedCreateUserInput (by decide) (by decide)
